import Mathlib

/-!
Verification of the Celestial MCP bridge (celestial_client.py,
celestial_host.py, celestial_engine.py).

The development shallowly embeds the response-interpretation step of
`MCPClient.process_query` (steps 5 and 6 of both the CLI client and the
HTTP host), the query-parameter assembly of `get_phenomena`, the
tool-catalog serialization embedded in the system prompt, and the
`handle_query` / `prettify_output` pipeline of the HTTP host.

External collaborators are modelled as parameters:
- `json.loads` is a parameter `jsonLoads : String → Option Json`
  (`none` models `json.JSONDecodeError`);
- `self.session.call_tool` is a parameter
  `callTool : Json → Json → Except String String` whose `ok` value is the
  tool result already rendered as text (the code interpolates
  `str(tool_result)` into an f-string) and whose `error` value is `str(e)`
  for the raised exception `e`;
- the chat-completion API is a parameter
  `complete : String → String → Except String String` (`error` models
  `OracleUnavailable`, `ok` the assistant message text).

Python runtime behaviour that the interpretation loop relies on is made
explicit: attribute errors from calling `.get` on non-dict values, type
errors from iterating non-iterables and from `"\n".join` on non-string
chunks, and the `str()` rendering used by f-string interpolation.
Uncaught Python exceptions are modelled as `Except.error`.
-/

/-- JSON values as produced by `json.loads`. Numbers are modelled as
integers (no claim here depends on floating-point values); objects keep
the key order of the source text, and `json.loads` always yields objects
with pairwise-distinct keys. -/
inductive Json where
  | null : Json
  | bool (b : Bool) : Json
  | num (n : Int) : Json
  | str (s : String) : Json
  | arr (items : List Json) : Json
  | obj (fields : List (String × Json)) : Json

/-- Python `repr` of a single character inside a quoted string literal:
backslash, the active quote character, and the common control characters
are escaped; everything else is rendered as itself. -/
def pyCharEscape (quote : Char) (c : Char) : String :=
  if c = '\\' then "\\\\"
  else if c = quote then "\\" ++ String.mk [quote]
  else if c = '\n' then "\\n"
  else if c = '\r' then "\\r"
  else if c = '\t' then "\\t"
  else String.mk [c]

/-- Python `repr` of a string: single-quoted, switching to double quotes
when the string contains a single quote but no double quote. -/
def pyStringRepr (s : String) : String :=
  let quote : Char := if s.toList.contains '\'' && !(s.toList.contains '"') then '"' else '\''
  String.mk [quote] ++ String.join (s.toList.map (pyCharEscape quote)) ++ String.mk [quote]

mutual

/-- Python `repr` of a parsed JSON value (`None`/`True`/`False` for the
scalar constants, quoted strings, bracketed comma-separated lists and
brace-delimited dicts). -/
def pyRepr : Json → String
  | .null => "None"
  | .bool true => "True"
  | .bool false => "False"
  | .num n => toString n
  | .str s => pyStringRepr s
  | .arr items => "[" ++ pyReprSeq items ++ "]"
  | .obj fields => "\x7b" ++ pyReprFields fields ++ "\x7d"

/-- Comma-separated `repr` rendering of the elements of a Python list. -/
def pyReprSeq : List Json → String
  | [] => ""
  | [v] => pyRepr v
  | v :: rest => pyRepr v ++ ", " ++ pyReprSeq rest

/-- Comma-separated `repr` rendering of the key/value entries of a
Python dict. -/
def pyReprFields : List (String × Json) → String
  | [] => ""
  | [(k, v)] => pyStringRepr k ++ ": " ++ pyRepr v
  | (k, v) :: rest => pyStringRepr k ++ ": " ++ pyRepr v ++ ", " ++ pyReprFields rest

end

/-- Python `str()` as used by f-string interpolation: a string renders as
itself, every other value renders as its `repr`. -/
def pyStr (v : Json) : String :=
  match v with
  | .str s => s
  | v => pyRepr v

/-- Python equality comparison `v == lit` between a parsed JSON value and
a string literal: true exactly when `v` is that string (no other JSON
value compares equal to a `str`). -/
def pyEqString (v : Json) (s : String) : Bool :=
  match v with
  | .str t => t == s
  | _ => false

/-- Lookup of a key in the field list of a parsed JSON object (Python
dict lookup; `json.loads` guarantees the keys are pairwise distinct). -/
def jsonLookup (fields : List (String × Json)) (key : String) : Option Json :=
  match fields with
  | [] => none
  | (k, v) :: rest => if k = key then some v else jsonLookup rest key

/-- Python `str.lower()`: per-character lowercase (the only use here is
on the ASCII strings `"True"`/`"False"` rendered from a boolean). -/
def pyLower (s : String) : String :=
  String.mk (s.toList.map Char.toLower)

/-- Python `v.get(key, default)`: dictionary lookup with a default on a
dict receiver; on any non-dict receiver the attribute access raises
`AttributeError`. -/
def pyGetD (v : Json) (key : String) (dflt : Json) : Except String Json :=
  match v with
  | .obj fields => .ok ((jsonLookup fields key).getD dflt)
  | _ => .error "AttributeError: no attribute get"

/-- Python `for x in v`: lists iterate their elements, strings iterate
their characters as one-character strings, dicts iterate their keys;
every other value raises `TypeError`. -/
def pyIterate (v : Json) : Except String (List Json) :=
  match v with
  | .arr items => .ok items
  | .str s => .ok (s.toList.map fun c => .str (String.mk [c]))
  | .obj fields => .ok (fields.map fun f => .str f.1)
  | _ => .error "TypeError: not iterable"

/-- Coercion a Python `str.join` performs on each sequence element: any
non-string chunk raises `TypeError`. -/
def asPyString (v : Json) : Except String String :=
  match v with
  | .str s => .ok s
  | _ => .error "TypeError: sequence item: expected str instance"

/-- Python `"\n".join(chunks)` on the accumulated chunk list. -/
def pyJoinLines (chunks : List Json) : Except String String := do
  let ss ← chunks.mapM asPyString
  return String.intercalate "\n" ss

/-- One iteration of the `for item in content_list` loop of
`MCPClient.process_query` in celestial_client.py (lines 129-152): a
`text` item appends `item.get("text", "")`, a `tool_use` item calls
`self.session.call_tool(item.get("name"), item.get("input", \x7b\x7d))`
and appends the bracketed success or error line, and any other item
appends the `Unrecognized item:` line. -/
def client_process_item (callTool : Json → Json → Except String String)
    (item : Json) : Except String Json := do
  if pyEqString (← pyGetD item "type" .null) "text" then
    let text ← pyGetD item "text" (.str "")
    return text
  else if pyEqString (← pyGetD item "type" .null) "tool_use" then
    let tool_name ← pyGetD item "name" .null
    let tool_input ← pyGetD item "input" (.obj [])
    match callTool tool_name tool_input with
    | .ok tool_result =>
        return .str ("[Tool '" ++ pyStr tool_name ++ "' executed with result: "
          ++ tool_result ++ "]")
    | .error e =>
        return .str ("[Error executing tool '" ++ pyStr tool_name ++ "': "
          ++ e ++ "]")
  else
    return .str ("Unrecognized item: " ++ pyStr item)

/-- The whole `for item in content_list` loop of celestial_client.py:
chunks are appended in item order; an uncaught exception inside the loop
body aborts the remainder of the loop. -/
def client_process_items (callTool : Json → Json → Except String String) :
    List Json → Except String (List Json)
  | [] => .ok []
  | item :: rest => do
      let chunk ← client_process_item callTool item
      let chunks ← client_process_items callTool rest
      return chunk :: chunks

/-- Steps 5 and 6 of `MCPClient.process_query` in celestial_client.py
(lines 118-154), taking the assistant message text as input: parse it
with `json.loads` (a `JSONDecodeError` produces the verbatim fallback
answer), read `parsed.get("content", [])`, process each content item,
and join the accumulated chunks with newlines. -/
def client_processResponse (jsonLoads : String → Option Json)
    (callTool : Json → Json → Except String String)
    (assistant_message : String) : Except String String :=
  match jsonLoads assistant_message with
  | none => .ok ("Model did not return valid JSON:\n" ++ assistant_message)
  | some parsed => do
      let content_list ← pyGetD parsed "content" (.arr [])
      let items ← pyIterate content_list
      let final_text_chunks ← client_process_items callTool items
      pyJoinLines final_text_chunks

/-- One iteration of the `for item in parsed.get("content", [])` loop of
`MCPClient.process_query` in celestial_host.py (lines 131-149); the body
is the same as the client's except that the `text` branch appends
`item.get("text", "")` without an intermediate variable. -/
def host_process_item (callTool : Json → Json → Except String String)
    (item : Json) : Except String Json := do
  if pyEqString (← pyGetD item "type" .null) "text" then
    return (← pyGetD item "text" (.str ""))
  else if pyEqString (← pyGetD item "type" .null) "tool_use" then
    let tool_name ← pyGetD item "name" .null
    let tool_input ← pyGetD item "input" (.obj [])
    match callTool tool_name tool_input with
    | .ok tool_result =>
        return .str ("[Tool '" ++ pyStr tool_name ++ "' executed with result: "
          ++ tool_result ++ "]")
    | .error e =>
        return .str ("[Error executing tool '" ++ pyStr tool_name ++ "': "
          ++ e ++ "]")
  else
    return .str ("Unrecognized item: " ++ pyStr item)

/-- The content loop of celestial_host.py, appending chunks in order. -/
def host_process_items (callTool : Json → Json → Except String String) :
    List Json → Except String (List Json)
  | [] => .ok []
  | item :: rest => do
      let chunk ← host_process_item callTool item
      let chunks ← host_process_items callTool rest
      return chunk :: chunks

/-- Steps 5 and 6 of `MCPClient.process_query` in celestial_host.py
(lines 123-151), taking the assistant message text as input; the content
list expression is inlined into the `for` loop header there. -/
def host_processResponse (jsonLoads : String → Option Json)
    (callTool : Json → Json → Except String String)
    (assistant_message : String) : Except String String :=
  match jsonLoads assistant_message with
  | none => .ok ("Model did not return valid JSON:\n" ++ assistant_message)
  | some parsed => do
      let items ← pyIterate (← pyGetD parsed "content" (.arr []))
      let final_text_chunks ← host_process_items callTool items
      pyJoinLines final_text_chunks

/-- Arguments of the `get_phenomena` tool (class `PhenomenaArgs` in
celestial_engine.py, lines 65-78): six required string fields and four
optional fields (`None` when not supplied). -/
structure PhenomenaArgs where
  body : String
  phenomena : String
  latitude : String
  longitude : String
  startDate : String
  endDate : String
  timezone : Option String
  useBst : Option Bool
  depression : Option Int
  altitude : Option Int

/-- The request path built by `get_phenomena` (celestial_engine.py
line 86). -/
def get_phenomena_endpoint (args : PhenomenaArgs) : String :=
  "/celestial-bodies/" ++ args.body ++ "/phenomena/" ++ args.phenomena

/-- The query-parameter dict built by `get_phenomena`
(celestial_engine.py lines 87-100): the four required parameters first,
then each optional parameter appended only when it is not `None`, with
`useBst` rendered as `str(args.useBst).lower()`. -/
def get_phenomena_params (args : PhenomenaArgs) : List (String × Json) :=
  let params := [("latitude", Json.str args.latitude),
                 ("longitude", Json.str args.longitude),
                 ("startDate", Json.str args.startDate),
                 ("endDate", Json.str args.endDate)]
  let params := match args.timezone with
    | some tz => params ++ [("timezone", Json.str tz)]
    | none => params
  let params := match args.useBst with
    | some b => params ++ [("useBst", Json.str (pyLower (pyStr (Json.bool b))))]
    | none => params
  let params := match args.depression with
    | some d => params ++ [("depression", Json.num d)]
    | none => params
  match args.altitude with
    | some a => params ++ [("altitude", Json.num a)]
    | none => params

/-- A tool descriptor as fetched from the Tool Channel: name,
description and input schema (spec §3, `ToolDescriptor`). -/
structure ToolDescriptor where
  name : String
  description : String
  inputSchema : Json

/-- Serialization of the tool catalog into the JSON array of
`\x7bname, description, input_schema\x7d` objects that
`MCPClient.process_query` embeds into the system prompt
(celestial_client.py lines 69-76); `json.dumps` renders exactly this
value. -/
def catalogToJson (catalog : List ToolDescriptor) : Json :=
  .arr (catalog.map fun tool =>
    .obj [("name", .str tool.name),
          ("description", .str tool.description),
          ("input_schema", tool.inputSchema)])

/-- Recovery of one `\x7bname, description, input_schema\x7d` triple
from its serialized JSON object. -/
def toolOfJson (v : Json) : Option ToolDescriptor :=
  match v with
  | .obj fields =>
      match jsonLookup fields "name", jsonLookup fields "description",
            jsonLookup fields "input_schema" with
      | some (.str n), some (.str d), some s => some ⟨n, d, s⟩
      | _, _, _ => none
  | _ => none

/-- Recovery of a whole catalog from the serialized JSON array
(`json.loads` of the prompt-embedded text yields this value back). -/
def catalogOfJson (v : Json) : Option (List ToolDescriptor) :=
  match v with
  | .arr items => items.mapM toolOfJson
  | _ => none

/-- The system prompt built by `MCPClient.prettify_output`
(celestial_host.py lines 166-170). -/
def prettify_system_prompt (query : String) : String :=
  "You are a helpful assistant that will receive JSON and format the output into a nice human readable string or table based on the json received.\n"
    ++ "The user has asked: " ++ query ++ "\n"
    ++ "Return the output as a nice string or table result."

/-- `MCPClient.prettify_output` (celestial_host.py lines 159-184): one
chat-completion call whose assistant message is returned as-is; a failed
oracle call (`OracleUnavailable`) is not caught anywhere in the body, so
it propagates to the caller. -/
def prettify_output (complete : String → String → Except String String)
    (query : String) : Except String String :=
  complete (prettify_system_prompt query) query

/-- `handle_query` (celestial_host.py lines 206-222) after the query
string `q` has been extracted from the request: run `process_query`,
then `prettify_output` on its result, and wrap the pretty output in the
JSON response; neither call is inside a try/except, so any failure
propagates to the HTTP framework. -/
def handle_query (processQuery : String → Except String String)
    (prettify : String → Except String String)
    (q : String) : Except String String := do
  let response_text ← processQuery q
  let nice_output ← prettify response_text
  return nice_output

/-- The line the loop body produces for a `tool_use` item, as a function
of the tool-invocation outcome (spec §4.4 step 3): the bracketed success
line on `Ok`, the bracketed inline error line on `Err`. -/
def renderToolOutcome (tool_name : Json) (outcome : Except String String) : String :=
  match outcome with
  | .ok tool_result =>
      "[Tool '" ++ pyStr tool_name ++ "' executed with result: " ++ tool_result ++ "]"
  | .error e =>
      "[Error executing tool '" ++ pyStr tool_name ++ "': " ++ e ++ "]"

/-- A content item the interpretation loop turns into a string chunk
without raising: it is a JSON object and, when it is a `text` item, its
`text` entry (defaulting to `""`) is a string — a non-string `text`
value would later make `"\n".join` raise `TypeError`, and a non-object
item would make `item.get` raise `AttributeError`. -/
def itemOk (item : Json) : Bool :=
  match item with
  | .obj fields =>
      match jsonLookup fields "type" with
      | some (.str "text") =>
          match (jsonLookup fields "text").getD (.str "") with
          | .str _ => true
          | _ => false
      | _ => true
  | _ => false

/-- A parsed assistant message the interpretation loop processes without
raising: a JSON object whose `content` entry (absent meaning the empty
list) is an array of items satisfying `itemOk`. -/
def envelopeOk (parsed : Json) : Bool :=
  match parsed with
  | .obj fields =>
      match (jsonLookup fields "content").getD (.arr []) with
      | .arr items => items.all itemOk
      | _ => false
  | _ => false

/-- The output line of one content item as spec §4.4 step 3 describes
it: a `text` item contributes its text (default `""`), a `tool_use` item
contributes the rendered tool outcome of calling the tool with its
`input` (default the empty object), anything else the
`Unrecognized item:` line. Only the `itemOk` items matter; the value on
other items is irrelevant junk. -/
def renderItem (callTool : Json → Json → Except String String)
    (item : Json) : String :=
  match item with
  | .obj fields =>
      match jsonLookup fields "type" with
      | some (.str "text") =>
          match (jsonLookup fields "text").getD (.str "") with
          | .str s => s
          | _ => ""
      | some (.str "tool_use") =>
          renderToolOutcome ((jsonLookup fields "name").getD .null)
            (callTool ((jsonLookup fields "name").getD .null)
              ((jsonLookup fields "input").getD (.obj [])))
      | _ => "Unrecognized item: " ++ pyStr item
  | _ => "Unrecognized item: " ++ pyStr item

theorem except_ok_bind {ε α β : Type} (v : α) (f : α → Except ε β) :
    (Except.ok v >>= f : Except ε β) = f v := rfl

theorem except_pure_eq_ok {ε α : Type} (v : α) :
    (pure v : Except ε α) = Except.ok v := rfl

theorem client_process_item_eq_render (callTool : Json → Json → Except String String)
    (item : Json) (h : itemOk item = true) :
    client_process_item callTool item = .ok (.str (renderItem callTool item)) := by
  match item, h with
  | .obj fields, h =>
    simp only [itemOk] at h
    simp only [client_process_item, renderItem, pyGetD, except_ok_bind]
    cases hty : jsonLookup fields "type" with
    | none =>
      simp [hty, pyEqString, Option.getD, except_pure_eq_ok]
    | some ty =>
      rw [hty] at h
      cases ty with
      | str s =>
        by_cases hs : s = "text"
        · subst hs
          simp only [hty, Option.getD_some, pyEqString, beq_self_eq_true, if_true] at h ⊢
          cases htext : (jsonLookup fields "text").getD (.str "") with
          | str t => simp [htext, except_pure_eq_ok]
          | _ => (rw [htext] at h; simp_all)
        · simp only [hty, Option.getD_some, pyEqString]
          by_cases hu : s = "tool_use"
          · subst hu
            simp only [renderToolOutcome, except_ok_bind, beq_iff_eq, if_true,
              if_false, reduceIte, except_pure_eq_ok]
            cases callTool ((jsonLookup fields "name").getD .null)
                ((jsonLookup fields "input").getD (.obj [])) <;> rfl
          · simp [hs, hu, except_pure_eq_ok]
      | null => simp [hty, pyEqString, except_pure_eq_ok]
      | bool b => simp [hty, pyEqString, except_pure_eq_ok]
      | num n => simp [hty, pyEqString, except_pure_eq_ok]
      | arr xs => simp [hty, pyEqString, except_pure_eq_ok]
      | obj kvs => simp [hty, pyEqString, except_pure_eq_ok]

theorem client_process_items_eq_map (callTool : Json → Json → Except String String)
    (items : List Json) (h : items.all itemOk = true) :
    client_process_items callTool items =
      .ok (items.map fun it => .str (renderItem callTool it)) := by
  induction items with
  | nil => rfl
  | cons item rest ih =>
    simp only [List.all_cons, Bool.and_eq_true] at h
    simp [client_process_items, client_process_item_eq_render callTool item h.1,
      ih h.2, except_ok_bind, except_pure_eq_ok]

theorem except_error_bind {ε α β : Type} (e : ε) (f : α → Except ε β) :
    (Except.error e >>= f : Except ε β) = Except.error e := rfl

theorem pyJoinLines_map_str (lines : List String) :
    pyJoinLines (lines.map Json.str) = .ok (String.intercalate "\n" lines) := by
  have hmap : (lines.map Json.str).mapM asPyString = Except.ok lines := by
    induction lines with
    | nil => rfl
    | cons l rest ih =>
      rw [List.map_cons, List.mapM_cons, ih]
      rfl
  unfold pyJoinLines
  rw [hmap, except_ok_bind]
  rfl

theorem client_processResponse_join_aux (jsonLoads : String → Option Json)
    (callTool : Json → Json → Except String String) (r : String)
    (fields : List (String × Json)) (items : List Json)
    (hp : jsonLoads r = some (.obj fields))
    (hc : (jsonLookup fields "content").getD (.arr []) = .arr items)
    (hok : items.all itemOk = true) :
    client_processResponse jsonLoads callTool r =
      .ok (String.intercalate "\n" (items.map (renderItem callTool))) := by
  have hjoin := pyJoinLines_map_str (items.map (renderItem callTool))
  rw [List.map_map, Function.comp_def] at hjoin
  simp [client_processResponse, hp, pyGetD, hc, pyIterate, except_ok_bind,
    client_process_items_eq_map callTool items hok, hjoin, Function.comp]

theorem host_process_item_eq_client (callTool : Json → Json → Except String String)
    (item : Json) :
    host_process_item callTool item = client_process_item callTool item := rfl

theorem host_process_items_eq_client (callTool : Json → Json → Except String String) :
    ∀ items : List Json,
      host_process_items callTool items = client_process_items callTool items
  | [] => rfl
  | item :: rest => by
    simp [host_process_items, client_process_items, host_process_item_eq_client,
      host_process_items_eq_client callTool rest]

theorem host_processResponse_eq_client_aux (jsonLoads : String → Option Json)
    (callTool : Json → Json → Except String String) (r : String) :
    host_processResponse jsonLoads callTool r =
      client_processResponse jsonLoads callTool r := by
  unfold host_processResponse client_processResponse
  cases jsonLoads r with
  | none => rfl
  | some parsed =>
    cases hg : pyGetD parsed "content" (.arr []) with
    | error e => simp [hg, except_error_bind]
    | ok content_list =>
      cases hi : pyIterate content_list with
      | error e => simp [hg, hi, except_ok_bind, except_error_bind]
      | ok items =>
        simp [hg, hi, except_ok_bind, host_process_items_eq_client]

theorem client_processResponse_ok_aux (jsonLoads : String → Option Json)
    (callTool : Json → Json → Except String String) (r : String)
    (h : ∀ parsed, jsonLoads r = some parsed → envelopeOk parsed = true) :
    ∃ s, client_processResponse jsonLoads callTool r = .ok s := by
  cases hp : jsonLoads r with
  | none =>
    exact ⟨"Model did not return valid JSON:\n" ++ r,
      by simp [client_processResponse, hp]⟩
  | some parsed =>
    have henv := h parsed hp
    cases parsed with
    | obj fields =>
      cases hc : (jsonLookup fields "content").getD (.arr []) with
      | arr items =>
        have hok : items.all itemOk = true := by
          simp only [envelopeOk, hc] at henv
          exact henv
        exact ⟨_, client_processResponse_join_aux jsonLoads callTool r fields items hp hc hok⟩
      | null => simp [envelopeOk, hc] at henv
      | bool b => simp [envelopeOk, hc] at henv
      | num n => simp [envelopeOk, hc] at henv
      | str s => simp [envelopeOk, hc] at henv
      | obj kvs => simp [envelopeOk, hc] at henv
    | null => simp [envelopeOk] at henv
    | bool b => simp [envelopeOk] at henv
    | num n => simp [envelopeOk] at henv
    | str s => simp [envelopeOk] at henv
    | arr xs => simp [envelopeOk] at henv

/-- C1 (counterexample): the claim that the response-interpretation step
never raises an exception for any raw assistant text is false. When the
assistant text is `"[]"` — valid JSON whose parse succeeds with a
top-level JSON array — `parsed.get("content", [])` raises
`AttributeError` (a list has no `get` method), so the step neither
returns the verbatim fallback answer nor processes content items; the
exception escapes `process_query`. -/
theorem claim_C1_crash_on_json_array :
    client_processResponse (fun _ => some (Json.arr []))
      (fun _ _ => Except.error "unused") "[]"
      = Except.error "AttributeError: no attribute get" := rfl

/-- C1 (amended): for every raw assistant text, if parsing fails the
verbatim fallback answer is returned, and if parsing succeeds with a
JSON object whose `content` entry (absent meaning the empty list) is an
array of objects in which every `text` item's `text` entry (absent
meaning `""`) is a string, the content items are processed to a final
answer; in both cases no exception is raised, in the CLI client and in
the HTTP host alike. Valid JSON outside this shape (e.g. a top-level
array) may raise. -/
theorem claim_C1_no_crash_for_wellformed (jsonLoads : String → Option Json)
    (callTool : Json → Json → Except String String) (r : String)
    (h : ∀ parsed, jsonLoads r = some parsed → envelopeOk parsed = true) :
    (∃ s, client_processResponse jsonLoads callTool r = .ok s) ∧
    (∃ s, host_processResponse jsonLoads callTool r = .ok s) := by
  refine ⟨client_processResponse_ok_aux jsonLoads callTool r h, ?_⟩
  rw [host_processResponse_eq_client_aux]
  exact client_processResponse_ok_aux jsonLoads callTool r h

/-- Concrete `json.loads` stand-in returning the parsed envelope
containing one text item, used by witnesses. -/
def helloLoads : String → Option Json :=
  fun _ => some (.obj [("content",
    .arr [.obj [("type", .str "text"), ("text", .str "hello")]])])

/-- C1 (witness): the amended theorem applied to a concrete well-formed
envelope. -/
theorem claim_C1_no_crash_witness :
    (∃ s, client_processResponse helloLoads (fun _ _ => Except.error "e")
        "w" = .ok s) ∧
    (∃ s, host_processResponse helloLoads (fun _ _ => Except.error "e")
        "w" = .ok s) :=
  claim_C1_no_crash_for_wellformed helloLoads (fun _ _ => Except.error "e") "w"
    (fun parsed hp => by
      simp only [helloLoads, Option.some.injEq] at hp
      subst hp
      rfl)

/-- C2: for every assistant text that `json.loads` fails to parse, the
interpretation step returns exactly the literal prefix
`"Model did not return valid JSON:\n"` concatenated with that text,
unmodified; the result is the same for every tool channel, so no tool is
invoked on this path. -/
theorem claim_C2_invalid_json_fallback (jsonLoads : String → Option Json)
    (callTool : Json → Json → Except String String) (r : String)
    (h : jsonLoads r = none) :
    client_processResponse jsonLoads callTool r =
      .ok ("Model did not return valid JSON:\n" ++ r) := by
  simp [client_processResponse, h]

/-- C2 (witness): the fallback on the concrete non-JSON text
`"not json"`. -/
theorem claim_C2_invalid_json_witness :
    client_processResponse (fun _ => none) (fun _ _ => Except.error "e")
      "not json" = .ok ("Model did not return valid JSON:\n" ++ "not json") :=
  claim_C2_invalid_json_fallback (fun _ => none) (fun _ _ => Except.error "e")
    "not json" rfl

/-- C3: in a successfully parsed envelope whose content items are
well-formed, if the item at some position is a `tool_use` whose
invocation fails with message `e` (an unknown tool name included — the
channel raises and the `except` branch catches it), the output is the
newline-join in which that position carries the inline line
`[Error executing tool '<name>': <e>]` while every preceding and every
following item is still processed to its own line; the cycle itself
returns normally. -/
theorem claim_C3_tool_failure_isolated (jsonLoads : String → Option Json)
    (callTool : Json → Json → Except String String) (r : String)
    (fields itemFields : List (String × Json)) (pre post : List Json) (e : String)
    (hp : jsonLoads r = some (.obj fields))
    (hc : (jsonLookup fields "content").getD (.arr [])
      = .arr (pre ++ Json.obj itemFields :: post))
    (hok : (pre ++ Json.obj itemFields :: post).all itemOk = true)
    (hty : jsonLookup itemFields "type" = some (.str "tool_use"))
    (hfail : callTool ((jsonLookup itemFields "name").getD .null)
        ((jsonLookup itemFields "input").getD (.obj [])) = .error e) :
    client_processResponse jsonLoads callTool r =
      .ok (String.intercalate "\n"
        (pre.map (renderItem callTool)
          ++ ("[Error executing tool '"
                ++ pyStr ((jsonLookup itemFields "name").getD .null)
                ++ "': " ++ e ++ "]")
            :: post.map (renderItem callTool))) := by
  have hmain := client_processResponse_join_aux jsonLoads callTool r fields
    (pre ++ Json.obj itemFields :: post) hp hc hok
  rw [hmain]
  rw [List.map_append, List.map_cons]
  have hitem : renderItem callTool (Json.obj itemFields)
      = "[Error executing tool '"
          ++ pyStr ((jsonLookup itemFields "name").getD .null)
          ++ "': " ++ e ++ "]" := by
    simp [renderItem, hty, hfail, renderToolOutcome]
  rw [hitem]

/-- Concrete `json.loads` stand-in for the C3 witness: a `tool_use` item
for the unregistered tool name `foo` followed by a text item. -/
def fooThenTextLoads : String → Option Json :=
  fun _ => some (.obj [("content", .arr
    [.obj [("type", .str "tool_use"), ("name", .str "foo"),
           ("input", .obj [])],
     .obj [("type", .str "text"), ("text", .str "after")]])])

/-- Tool channel that rejects every call, as the provider does for an
unknown tool name. -/
def rejectAllTools : Json → Json → Except String String :=
  fun _ _ => Except.error "Unknown tool: foo"

/-- C3 (witness): the failed `foo` call yields its inline error line and
the following text item is still processed. -/
theorem claim_C3_tool_failure_witness :
    client_processResponse fooThenTextLoads rejectAllTools "w" =
      .ok "[Error executing tool 'foo': Unknown tool: foo]\nafter" := by
  have h := claim_C3_tool_failure_isolated fooThenTextLoads rejectAllTools "w"
    [("content", .arr
      [.obj [("type", .str "tool_use"), ("name", .str "foo"),
             ("input", .obj [])],
       .obj [("type", .str "text"), ("text", .str "after")]])]
    [("type", .str "tool_use"), ("name", .str "foo"), ("input", .obj [])]
    []
    [.obj [("type", .str "text"), ("text", .str "after")]]
    "Unknown tool: foo" rfl rfl rfl rfl rfl
  exact h

/-- C4: for every successfully parsed envelope with well-formed content
items, the final answer is the newline-join of one string per content
item, in content order: `renderItem` gives a text item its `text` value,
a successfully invoked `tool_use` item the line
`[Tool '<name>' executed with result: <result>]`, and a failed one the
inline error line. -/
theorem claim_C4_newline_join_per_item (jsonLoads : String → Option Json)
    (callTool : Json → Json → Except String String) (r : String)
    (fields : List (String × Json)) (items : List Json)
    (hp : jsonLoads r = some (.obj fields))
    (hc : (jsonLookup fields "content").getD (.arr []) = .arr items)
    (hok : items.all itemOk = true) :
    client_processResponse jsonLoads callTool r =
      .ok (String.intercalate "\n" (items.map (renderItem callTool))) :=
  client_processResponse_join_aux jsonLoads callTool r fields items hp hc hok

/-- Concrete `json.loads` stand-in for the C4 witness: the spec §8
example content `[text "A", tool_use list_celestial_bodies \x7b\x7d]`. -/
def aThenToolLoads : String → Option Json :=
  fun _ => some (.obj [("content", .arr
    [.obj [("type", .str "text"), ("text", .str "A")],
     .obj [("type", .str "tool_use"), ("name", .str "list_celestial_bodies"),
           ("input", .obj [])]])])

/-- Tool channel on which every call succeeds with the rendered result
`R`. -/
def constROkTools : Json → Json → Except String String :=
  fun _ _ => Except.ok "R"

/-- C4 (witness): the spec §8 example — the answer is exactly
`A`, a newline, and the tool success line, in content order. -/
theorem claim_C4_newline_join_witness :
    client_processResponse aThenToolLoads constROkTools "w" =
      .ok "A\n[Tool 'list_celestial_bodies' executed with result: R]" := by
  have h := claim_C4_newline_join_per_item aThenToolLoads constROkTools "w"
    [("content", .arr
      [.obj [("type", .str "text"), ("text", .str "A")],
       .obj [("type", .str "tool_use"), ("name", .str "list_celestial_bodies"),
             ("input", .obj [])]])]
    [.obj [("type", .str "text"), ("text", .str "A")],
     .obj [("type", .str "tool_use"), ("name", .str "list_celestial_bodies"),
           ("input", .obj [])]]
    rfl rfl rfl
  exact h

/-- C5: an assistant text that parses as a JSON object with no `content`
key is treated as an empty content sequence: the step returns the empty
string (the newline-join of zero items), not the fallback answer and not
an error. -/
theorem claim_C5_missing_content_empty (jsonLoads : String → Option Json)
    (callTool : Json → Json → Except String String) (r : String)
    (fields : List (String × Json))
    (hp : jsonLoads r = some (.obj fields))
    (hc : jsonLookup fields "content" = none) :
    client_processResponse jsonLoads callTool r = .ok "" := by
  have h := client_processResponse_join_aux jsonLoads callTool r fields []
    hp (by rw [hc]; rfl) rfl
  exact h

/-- C5 (witness): a parsed object with only an unrelated key yields the
empty answer. -/
theorem claim_C5_missing_content_witness :
    client_processResponse (fun _ => some (.obj [("other", Json.null)]))
      (fun _ _ => Except.error "e") "w" = .ok "" :=
  claim_C5_missing_content_empty (fun _ => some (.obj [("other", Json.null)]))
    (fun _ _ => Except.error "e") "w" [("other", Json.null)] rfl rfl

theorem pyBool_toLower (b : Bool) :
    pyLower (pyStr (Json.bool b)) = cond b "true" "false" := by
  cases b <;> rfl

/-- C6: in the query-parameter dict built by `get_phenomena`, each of
the four required parameters is always present with its supplied string
value; each optional parameter is present exactly when it was supplied
(`none` maps to an absent key), and a supplied `useBst` appears as the
literal string `"true"` or `"false"`, not as a boolean. -/
theorem claim_C6_get_phenomena_params (args : PhenomenaArgs) :
    jsonLookup (get_phenomena_params args) "latitude"
      = some (.str args.latitude) ∧
    jsonLookup (get_phenomena_params args) "longitude"
      = some (.str args.longitude) ∧
    jsonLookup (get_phenomena_params args) "startDate"
      = some (.str args.startDate) ∧
    jsonLookup (get_phenomena_params args) "endDate"
      = some (.str args.endDate) ∧
    jsonLookup (get_phenomena_params args) "timezone"
      = args.timezone.map Json.str ∧
    jsonLookup (get_phenomena_params args) "useBst"
      = args.useBst.map (fun b => Json.str (cond b "true" "false")) ∧
    jsonLookup (get_phenomena_params args) "depression"
      = args.depression.map Json.num ∧
    jsonLookup (get_phenomena_params args) "altitude"
      = args.altitude.map Json.num := by
  obtain ⟨body, phen, lat, lon, sd, ed, tz, ub, dep, alt⟩ := args
  cases tz <;> cases ub <;> cases dep <;> cases alt <;>
    simp [get_phenomena_params, jsonLookup, pyBool_toLower]

/-- C7: when `process_query` has produced an unformatted answer and the
Presentation Pass's single oracle call fails, `handle_query` propagates
that failure to its caller — it does not return the unformatted answer
(nor any other success value built from it). -/
theorem claim_C7_prettify_failure_propagates
    (processQuery : String → Except String String)
    (complete : String → String → Except String String)
    (q response_text e : String)
    (hq : processQuery q = .ok response_text)
    (he : complete (prettify_system_prompt response_text) response_text
      = .error e) :
    handle_query processQuery (prettify_output complete) q = .error e ∧
    handle_query processQuery (prettify_output complete) q
      ≠ .ok response_text := by
  have h1 : handle_query processQuery (prettify_output complete) q
      = .error e := by
    simp [handle_query, hq, except_ok_bind, prettify_output, he]
  exact ⟨h1, by rw [h1]; exact fun hc => Except.noConfusion hc⟩

/-- C7 (witness): a concrete negotiation result `"raw"` whose
presentation call fails with `OracleUnavailable` yields that error, not
`"raw"`. -/
theorem claim_C7_prettify_failure_witness :
    handle_query (fun _ => Except.ok "raw")
      (prettify_output (fun _ _ => Except.error "OracleUnavailable")) "q"
      = .error "OracleUnavailable" ∧
    handle_query (fun _ => Except.ok "raw")
      (prettify_output (fun _ _ => Except.error "OracleUnavailable")) "q"
      ≠ .ok "raw" :=
  claim_C7_prettify_failure_propagates (fun _ => Except.ok "raw")
    (fun _ _ => Except.error "OracleUnavailable") "q" "raw"
    "OracleUnavailable" rfl rfl

/-- C8: serializing a tool catalog to the prompt-embedded JSON array of
`\x7bname, description, input_schema\x7d` objects and parsing that JSON
back recovers exactly the original sequence of
(name, description, inputSchema) triples — in particular the same set. -/
theorem claim_C8_catalog_roundtrip (catalog : List ToolDescriptor) :
    catalogOfJson (catalogToJson catalog) = some catalog := by
  induction catalog with
  | nil => rfl
  | cons tool rest ih =>
    have hx : toolOfJson (Json.obj
        [("name", .str tool.name), ("description", .str tool.description),
         ("input_schema", tool.inputSchema)]) = some tool := rfl
    simp only [catalogToJson, catalogOfJson, List.map_cons] at ih ⊢
    rw [List.mapM_cons, hx, ih]
    rfl

/-- C9: a `tool_use` content item with no `input` key is not skipped and
does not fail: both loop bodies invoke the tool with the empty JSON
object `\x7b\x7d` as its arguments and append the line rendered from
that invocation's outcome. -/
theorem claim_C9_default_empty_input
    (callTool : Json → Json → Except String String)
    (itemFields : List (String × Json))
    (hty : jsonLookup itemFields "type" = some (.str "tool_use"))
    (hin : jsonLookup itemFields "input" = none) :
    client_process_item callTool (.obj itemFields) =
      .ok (.str (renderToolOutcome ((jsonLookup itemFields "name").getD .null)
        (callTool ((jsonLookup itemFields "name").getD .null) (.obj [])))) ∧
    host_process_item callTool (.obj itemFields) =
      .ok (.str (renderToolOutcome ((jsonLookup itemFields "name").getD .null)
        (callTool ((jsonLookup itemFields "name").getD .null) (.obj [])))) := by
  have hok : itemOk (.obj itemFields) = true := by
    simp [itemOk, hty]
  have h1 := client_process_item_eq_render callTool (.obj itemFields) hok
  rw [renderItem, hty] at h1
  simp only [hin, Option.getD_none] at h1
  exact ⟨h1, by rw [host_process_item_eq_client]; exact h1⟩

/-- Tool channel for the C9 witness: succeeds exactly on the empty
input object, showing that the default `\x7b\x7d` is what gets passed. -/
def emptyInputTools : Json → Json → Except String String :=
  fun _ i => match i with
    | .obj [] => Except.ok "empty input"
    | _ => Except.error "nonempty input"

/-- C9 (witness): an inputless `tool_use` item for `foo` is executed
with the empty object and produces the success line built from it. -/
theorem claim_C9_default_empty_input_witness :
    client_process_item emptyInputTools
        (.obj [("type", .str "tool_use"), ("name", .str "foo")]) =
      .ok (.str "[Tool 'foo' executed with result: empty input]") ∧
    host_process_item emptyInputTools
        (.obj [("type", .str "tool_use"), ("name", .str "foo")]) =
      .ok (.str "[Tool 'foo' executed with result: empty input]") :=
  claim_C9_default_empty_input emptyInputTools
    [("type", .str "tool_use"), ("name", .str "foo")] rfl rfl

/-- C10: the two hand-written copies of the response-interpretation step
— `process_query` in the CLI client and in the HTTP host — are
extensionally equal: for the same assistant text, the same parse result
and the same tool-invocation outcomes they return the identical final
answer (and raise identically). -/
theorem claim_C10_host_equals_client (jsonLoads : String → Option Json)
    (callTool : Json → Json → Except String String) (r : String) :
    host_processResponse jsonLoads callTool r
      = client_processResponse jsonLoads callTool r :=
  host_processResponse_eq_client_aux jsonLoads callTool r
